import Mathlib

/-!
Verification of the noonlight-py alarm client: a shallow embedding of the
alarm lifecycle and sensor-event reconciliation logic of
`noonlight/__init__.py`, together with theorems settling the specification
claims about it.

Modelling conventions:
* JSON values (the parsed bodies the `aiohttp` transport returns, and the
  `_json_data` attribute bag backing a `NoonlightAlarm`) are modelled by the
  inductive type `JVal`.  Python `dict`s are association lists
  (`PyDict`) with first-match lookup and overwrite-in-place update,
  matching CPython's insertion-order semantics.  JSON floats do not occur
  in this model (the claims are about ints, strings, bools and objects).
* Python `datetime` objects are `PyDatetime` records; ordering is the
  lexicographic field order, realised through the injective key `dtKey`.
* Exceptions that the embedded code can raise are made explicit with
  `Except PyErr`; code that cannot raise (because every exception is caught,
  e.g. the bare `except:` in `created_at`) is a total function.
* Each network-touching alarm method takes the transport's parsed JSON
  response as an explicit argument (the transport is an external
  collaborator); a `Bool` component of the result records whether the
  transport endpoint was actually invoked.
-/

/-- A Python `datetime` as produced by `datetime.strptime`: the constructor
has already validated the field ranges. -/
structure PyDatetime where
  year : Nat
  month : Nat
  day : Nat
  hour : Nat
  minute : Nat
  second : Nat
  microsecond : Nat
deriving DecidableEq, Repr

/-- `datetime.min` = `datetime(1, 1, 1)`. -/
def datetimeMin : PyDatetime := ⟨1, 1, 1, 0, 0, 0, 0⟩

/-- An injective numeric key realising the lexicographic (= chronological)
order on validated datetimes: every radix strictly bounds its field. -/
def dtKey (d : PyDatetime) : Nat :=
  (((((d.year * 13 + d.month) * 32 + d.day) * 24 + d.hour) * 60 + d.minute) * 60
      + d.second) * 1000000 + d.microsecond

/-- A parsed JSON value, plus the `dt` constructor for Python `datetime`
objects, which the `locations` property writes back into the location
dictionaries after parsing their `created_at` strings.  A JSON float
(`json.loads` yields one whenever the literal has a point or exponent)
carries its exact value: every finite IEEE-754 double is a rational, and
CPython's mixed float/int comparisons compare exact numeric values, so
this loses nothing for `==`/`<`; the rationals are a superset of the
doubles, and the non-finite floats of json's `allow_nan` extension are
not modelled (they compare unequal to every int anyway). -/
inductive JVal where
  | null : JVal
  | bool : Bool → JVal
  | int : Int → JVal
  | float : ℚ → JVal
  | str : String → JVal
  | dt : PyDatetime → JVal
  | arr : List JVal → JVal
  | obj : List (String × JVal) → JVal

/-- A Python dict with string keys, as an insertion-ordered association list. -/
abbrev PyDict := List (String × JVal)

/-- The Python exceptions the embedded code can raise. -/
inductive PyErr where
  | typeError : PyErr
  | attributeError : PyErr
  | valueError : PyErr
  | keyError : PyErr
deriving DecidableEq, Repr

/-- Python `d.get(k)` / `d[k]`-style first-match lookup (CPython dicts have
unique keys, so first-match and the hash lookup agree). -/
def dictGet : PyDict → String → Option JVal
  | [], _ => none
  | (k', v) :: d, k => if k' = k then some v else dictGet d k

/-- Python `k in d`. -/
def hasKey : PyDict → String → Bool
  | [], _ => false
  | (k', _) :: d, k => if k' = k then true else hasKey d k

/-- Python `d[k] = v`: overwrite in place if the key exists (keeping its
position), else append, per CPython's insertion-order semantics. -/
def dictSet : PyDict → String → JVal → PyDict
  | [], k, v => [(k, v)]
  | (k', v') :: d, k, v => if k' = k then (k, v) :: d else (k', v') :: dictSet d k v

/-- Python `d.update(r)`: assign every key of `r`, in order, into `d`. -/
def dictUpdate (d : PyDict) (r : PyDict) : PyDict :=
  r.foldl (fun acc p => dictSet acc p.1 p.2) d

/-- Keys of a well-formed Python dict are distinct. -/
def DictWF (d : PyDict) : Prop := (d.map Prod.fst).Nodup

/-- Gregorian leap year, as `calendar.isleap` / the `datetime` module. -/
def isLeap (y : Nat) : Bool := y % 4 = 0 && (y % 100 ≠ 0 || y % 400 = 0)

/-- Days in a month, as validated by the `datetime` constructor. -/
def daysInMonth (y m : Nat) : Nat :=
  if m = 2 then (if isLeap y then 29 else 28)
  else if m = 4 ∨ m = 6 ∨ m = 9 ∨ m = 11 then 30
  else 31

def digitVal (c : Char) : Nat := c.toNat - 48

/-- Take the maximal leading digit run of the input. -/
def takeDigits : List Char → List Nat × List Char
  | [] => ([], [])
  | c :: cs =>
    if c.isDigit then
      let (ds, rest) := takeDigits cs
      (digitVal c :: ds, rest)
    else ([], c :: cs)

def natOfDigits (ds : List Nat) : Nat := ds.foldl (fun a d => a * 10 + d) 0

/-- Expect an exact literal character, as a literal in the `strptime` regex. -/
def expectChar (c : Char) : List Char → Option (List Char)
  | [] => none
  | c' :: cs => if c' = c then some cs else none

/-- Expect a literal character case-insensitively: `_strptime` compiles its
format regex with `re.IGNORECASE`. -/
def expectCharCI (c : Char) : List Char → Option (List Char)
  | [] => none
  | c' :: cs => if c'.toLower = c.toLower then some cs else none

/-- A one-or-two digit numeric field of the `strptime` regex
(e.g. `%m` is `1[0-2]|0[1-9]|[1-9]`).  In the format
`%Y-%m-%dT%H:%M:%S.%fZ` every such field is followed by a non-digit
literal, so the regex consumes the entire maximal digit run or fails:
`ok2` is the value constraint of the two-digit alternatives, `ok1` that of
the one-digit alternative. -/
def parseField (ok2 ok1 : Nat → Bool) (cs : List Char) : Option (Nat × List Char) :=
  let (ds, rest) := takeDigits cs
  match ds with
  | [d] => if ok1 d then some (d, rest) else none
  | [d1, d2] => if ok2 (d1 * 10 + d2) then some (d1 * 10 + d2, rest) else none
  | _ => none

/-- The fractional-seconds field `%f` (`[0-9]{1,6}`, right-padded to
microseconds) followed by the terminating literal and end of input. -/
def parseFraction (cs : List Char) : Option Nat :=
  match takeDigits cs with
  | (fds, rest) =>
    if 1 ≤ fds.length ∧ fds.length ≤ 6 then
      match expectCharCI 'Z' rest with
      | some [] => some (natOfDigits fds * 10 ^ (6 - fds.length))
      | _ => none
    else none

/-- The time-of-day part `%H:%M:%S.%fZ` of the format. -/
def parseTimePart (cs : List Char) : Option (Nat × Nat × Nat × Nat) :=
  (parseField (fun v => v ≤ 23) (fun _ => true) cs).bind fun (hh, cs) =>
  (expectChar ':' cs).bind fun cs =>
  (parseField (fun v => v ≤ 59) (fun _ => true) cs).bind fun (mi, cs) =>
  (expectChar ':' cs).bind fun cs =>
  (parseField (fun v => v ≤ 61) (fun _ => true) cs).bind fun (ss, cs) =>
  (expectChar '.' cs).bind fun cs =>
  (parseFraction cs).map fun micro => (hh, mi, ss, micro)

/-- The date part `%Y-%m-%dT` of the format: `%Y` is exactly four digits. -/
def parseDatePart (cs : List Char) : Option (Nat × Nat × Nat × List Char) :=
  match takeDigits cs with
  | (yds, cs) =>
    if yds.length = 4 then
      (expectChar '-' cs).bind fun cs =>
      (parseField (fun v => 1 ≤ v && v ≤ 12) (fun v => 1 ≤ v) cs).bind fun (m, cs) =>
      (expectChar '-' cs).bind fun cs =>
      (parseField (fun v => 1 ≤ v && v ≤ 31) (fun v => 1 ≤ v) cs).bind fun (d, cs) =>
      (expectCharCI 'T' cs).map fun cs => (natOfDigits yds, m, d, cs)
    else none

/-- `datetime.strptime(s, "%Y-%m-%dT%H:%M:%S.%fZ")`: parse the regex part,
then apply the `datetime` constructor's validation (year at least 1, day
within the month, no leap seconds), whose `ValueError` `strptime`
propagates. -/
def strptimeNoonlight (s : String) : Option PyDatetime :=
  (parseDatePart s.data).bind fun (y, m, d, cs) =>
  (parseTimePart cs).bind fun (hh, mi, ss, micro) =>
  if 1 ≤ y ∧ d ≤ daysInMonth y m ∧ ss ≤ 59 then
    some ⟨y, m, d, hh, mi, ss, micro⟩
  else none

/-! ## The `NoonlightAlarm` aggregate -/

/-- One telemetry reading (`NoonlightSensorEvent`).  The `timestamp` is the
stored string (a structured timestamp is normalised to ISO-8601 with a
trailing `Z` by the constructor before storage).  `attr` is the Python
`attribute` field, renamed because `attribute` is a Lean keyword. -/
structure NoonlightSensorEvent where
  timestamp : String
  device_id : String
  device_model : String
  device_manufacturer : String
  device_name : String
  attr : String
  value : JVal
  unit : String

/-- `NoonlightSensorEvent.__eq__` (and the `__hash__` key): equality of the
`__members` pair `(timestamp, device_id)`, ignoring every other field. -/
def pyEventEq (x y : NoonlightSensorEvent) : Bool :=
  decide ((x.timestamp, x.device_id) = (y.timestamp, y.device_id))

/-- The in-memory state of a `NoonlightAlarm`: the `_json_data` attribute
bag and the two sensor-event lists.  The `_client` reference is not state;
each transport response is passed to the methods explicitly. -/
structure NoonlightAlarm where
  json : PyDict
  events : List NoonlightSensorEvent
  sentEvents : List NoonlightSensorEvent

namespace NoonlightAlarm

/-- The `status` property: `self._json_data.get('status')`. -/
def status (a : NoonlightAlarm) : Option JVal := dictGet a.json "status"

/-- The `created_at` key's value, defaulted exactly as in the source:
`self._json_data.get('created_at', "0001-01-01T00:00:00.00Z")`. -/
def createdAtRaw (a : NoonlightAlarm) : JVal :=
  (dictGet a.json "created_at").getD (.str "0001-01-01T00:00:00.00Z")

/-- `datetime.strptime` applied to an arbitrary stored value: a non-string
argument raises `TypeError`, a string that the format rejects raises
`ValueError`. -/
def pyStrptime : JVal → Except PyErr PyDatetime
  | .str s =>
    match strptimeNoonlight s with
    | some d => .ok d
    | none => .error .valueError
  | _ => .error .typeError

/-- The `created_at` property: parse the stored (or default) timestamp
string; the bare `except:` turns every failure into `datetime.min`. -/
def created_at (a : NoonlightAlarm) : PyDatetime :=
  match pyStrptime (createdAtRaw a) with
  | .ok d => d
  | .error _ => datetimeMin

/-! ### The `locations` property -/

/-- The sort key of one merged location: `x.get('created_at')`, with
Python's `None` for a missing key as `Option.none`.  Every entry reaching
the sort is a dict (see `processLocs`). -/
def locGet : JVal → Option JVal
  | .obj fs => dictGet fs "created_at"
  | _ => none

/-- One iteration of the parse loop in `locations` on a location dict:
if `created_at` is present and not already a `datetime`, try to parse it in
place; both failure modes (`ValueError` for a non-matching string,
`TypeError` for a non-string) are swallowed by `except: pass`. -/
def parseLocTimestamp (fs : PyDict) : PyDict :=
  match dictGet fs "created_at" with
  | some (.str s) =>
    match strptimeNoonlight s with
    | some d => dictSet fs "created_at" (.dt d)
    | none => fs
  | _ => fs

/-- The parse loop of `locations` over the merged location list.  The API's
location entries are JSON objects; the `'created_at' in location`
membership test on a non-dict entry is modelled as a `TypeError`. -/
def processLocs : List JVal → Except PyErr (List JVal)
  | [] => .ok []
  | .obj fs :: vs =>
    match processLocs vs with
    | .ok rest => .ok (.obj (parseLocTimestamp fs) :: rest)
    | .error e => .error e
  | _ :: _ => .error .typeError

/-- Python 3 `<` between two sort keys (`x.get('created_at')` values).
Keys of the same comparable class (both `datetime`, both `str`, both
`int`, both `float`) compare; a missing `created_at` (`None`) against
anything, including another `None`, raises `TypeError`.  Lean's `String`
order is the code-point lexicographic order Python uses.  Python's mixed
numeric comparisons (`int`/`float`/`bool`) are left to the catch-all:
this API's `created_at` fields are strings or datetimes, and no theorem
exercises the catch-all except at `None`. -/
def pyKeyLt : Option JVal → Option JVal → Except PyErr Bool
  | some (.dt a), some (.dt b) => .ok (decide (dtKey a < dtKey b))
  | some (.str a), some (.str b) => .ok (decide (a < b))
  | some (.int a), some (.int b) => .ok (decide (a < b))
  | some (.float a), some (.float b) => .ok (decide (a < b))
  | _, _ => .error .typeError

/-- Stable descending insertion: place `a` (an earlier element) before the
first already-placed `b` whose key is not above `a`'s, propagating the
`TypeError` of an incomparable pair.  On inputs whose keys all compare
this computes exactly the stable descending sort that
`sorted(..., reverse=True)` returns (stable sorts of a total preorder are
unique as functions); and it raises exactly when CPython's sort does —
some comparison of a mixed-class key pair is unavoidable once the list has
at least two elements. -/
def insertDescE (a : JVal) : List JVal → Except PyErr (List JVal)
  | [] => .ok [a]
  | b :: l =>
    match pyKeyLt (locGet a) (locGet b) with
    | .error e => .error e
    | .ok true =>
      match insertDescE a l with
      | .ok r => .ok (b :: r)
      | .error e => .error e
    | .ok false => .ok (a :: b :: l)

/-- `sorted(locations_merged, key=lambda x: x.get('created_at'), reverse=True)`. -/
def pySortedDescE : List JVal → Except PyErr (List JVal)
  | [] => .ok []
  | a :: l =>
    match pySortedDescE l with
    | .ok r => insertDescE a r
    | .error e => .error e

/-- The `locations` property: merge the stored address and coordinate
lists (addresses first), parse each entry's `created_at` in place, and
sort most-recent-first.  `.get('addresses')` on a non-dict `locations`
value is an `AttributeError`; `+` with a non-list operand is a
`TypeError`. -/
def locations (a : NoonlightAlarm) : Except PyErr (List JVal) :=
  match dictGet a.json "locations" with
  | some (.obj locs) => locationsOf locs
  | none => locationsOf []
  | some _ => .error .attributeError
where
  locationsOf (locs : PyDict) : Except PyErr (List JVal) :=
    match dictGet locs "addresses", dictGet locs "coordinates" with
    | some (.arr addrs), some (.arr coords) => sortMerged (addrs ++ coords)
    | some (.arr addrs), none => sortMerged addrs
    | none, some (.arr coords) => sortMerged coords
    | none, none => sortMerged []
    | _, _ => .error .typeError
  sortMerged (merged : List JVal) : Except PyErr (List JVal) :=
    match processLocs merged with
    | .ok processed => pySortedDescE processed
    | .error e => .error e

/-! ### Sensor-event queue operations -/

/-- The `unsent_events` property, `list(set(self.events) - set(self.sent_events))`:
the events whose identity does not occur among the sent events.
`add_event`'s membership guard keeps `_sensor_events` free of
identity-duplicates, so the set conversion only affects iteration order,
which Python leaves unspecified; the model fixes insertion order. -/
def unsent_events (a : NoonlightAlarm) : List NoonlightSensorEvent :=
  a.events.filter (fun e => !(a.sentEvents.any (fun s => pyEventEq s e)))

/-- `send_events()`: snapshot the unsent events; if any, call the
transport (`resp` is its parsed response; the final `Bool` records that
the call happened) and, if the response carries an `id` acknowledgment,
extend the sent list by the snapshot and return it; otherwise return `[]`. -/
def send_events (resp : PyDict) (a : NoonlightAlarm) :
    NoonlightAlarm × List NoonlightSensorEvent × Bool :=
  let events_to_send := unsent_events a
  if events_to_send.length > 0 then
    if hasKey resp "id" then
      ({ a with sentEvents := a.sentEvents ++ events_to_send }, events_to_send, true)
    else (a, [], true)
  else (a, [], false)

/-- `add_event(event, send_immediately)`: drop the event (returning
Python `None`) if an identity-equal event is already queued; otherwise
append it and either flush the queue (returning the transmitted events)
or return the unsent snapshot.  A constructed event object is always
truthy, so the `if event` guard never fires for a typed event. -/
def add_event (e : NoonlightSensorEvent) (send_immediately : Bool) (resp : PyDict)
    (a : NoonlightAlarm) :
    NoonlightAlarm × Option (List NoonlightSensorEvent) × Bool :=
  if a.events.any (fun x => pyEventEq x e) then (a, none, false)
  else
    let a1 : NoonlightAlarm := { a with events := a.events ++ [e] }
    if send_immediately then
      let r := send_events resp a1
      (r.1, some r.2.1, r.2.2)
    else (a1, some (unsent_events a1), false)

/-! ### Lifecycle operations -/

/-- Python `==` between a JSON value (or `None`, for a missing key) and an
int literal.  Python compares a float and an int by exact numeric value
(`200.0 == 200` is true) and a `bool` as its int value (`True == 1`);
every other class mix, including `str` against `int`, is unequal. -/
def pyEqInt : Option JVal → Int → Bool
  | some (.int m), n => m == n
  | some (.float q), n => q == (n : ℚ)
  | some (.bool b), n => (if b then (1 : Int) else 0) == n
  | _, _ => false

/-- `cancel()`: ask the transport to update the alarm status (`resp` is
its parsed response) and, exactly when `response.get('status') == 200`,
set the local status to `CANCELED` and return `True`; otherwise return
`False` with the state untouched. -/
def cancel (resp : PyDict) (a : NoonlightAlarm) : NoonlightAlarm × Bool :=
  if pyEqInt (dictGet resp "status") 200 then
    ({ a with json := dictSet a.json "status" (.str "CANCELED") }, true)
  else (a, false)

/-- `_add_location(type, data)`: ensure the `locations` dict exists, then
initialise the list under `key` whenever `type` is absent from the dict —
note the source tests membership of `type` (`'address'`) but stores under
`key` (`'addresses'`) — and append `data` to the list under `key`.
A non-dict `locations` value is not part of the API's data shape and is
modelled as a `TypeError`; `.append` on a non-list is an
`AttributeError`; a present `'address'` key with no `'addresses'` key
makes the indexing for the final append a `KeyError`. -/
def add_location (ty : String) (data : JVal) (a : NoonlightAlarm) :
    Except PyErr NoonlightAlarm :=
  if ty = "coordinates" ∨ ty = "address" then
    let key := if ty = "address" then "addresses" else ty
    let json1 := if hasKey a.json "locations" then a.json
                 else dictSet a.json "locations" (.obj [])
    match dictGet json1 "locations" with
    | some (.obj locs) =>
      let locs1 := if hasKey locs ty then locs else dictSet locs key (.arr [])
      match dictGet locs1 key with
      | some (.arr xs) =>
        .ok { a with json := dictSet json1 "locations" (.obj (dictSet locs1 key (.arr (xs ++ [data])))) }
      | some _ => .error .attributeError
      | none => .error .keyError
    | _ => .error .typeError
  else .ok a

/-- `_update_location_by_type(type, data)`: for a recognised type, call
the transport's location-update endpoint (`resp` is its parsed response);
if the response echoes the type key, append `response[type]` to local
storage and return `True`, else `False`. -/
def update_location_by_type (ty : String) (_data : JVal) (resp : PyDict)
    (a : NoonlightAlarm) : Except PyErr (NoonlightAlarm × Bool) :=
  if ty = "coordinates" ∨ ty = "address" then
    if hasKey resp ty then
      match add_location ty ((dictGet resp ty).getD .null) a with
      | .ok a1 => .ok (a1, true)
      | .error e => .error e
    else .ok (a, false)
  else .ok (a, false)

/-- `update_location_coordinates(lat, lng, accuracy)`. -/
def update_location_coordinates (lat lng accuracy : JVal) (resp : PyDict)
    (a : NoonlightAlarm) : Except PyErr (NoonlightAlarm × Bool) :=
  update_location_by_type "coordinates"
    (.obj [("lat", lat), ("lng", lng), ("accuracy", accuracy)]) resp a

/-- `update_location_address(line1, line2, city, state, zip)`: the state is
uppercased, `line2` omitted when `None` or empty. -/
def update_location_address (line1 : String) (line2 : Option String)
    (city state zip : String) (resp : PyDict) (a : NoonlightAlarm) :
    Except PyErr (NoonlightAlarm × Bool) :=
  let base : PyDict :=
    [("line1", .str line1), ("city", .str city),
     ("state", .str state.toUpper), ("zip", .str zip)]
  let data : PyDict :=
    match line2 with
    | some l2 => if l2.length > 0 then dictSet base "line2" (.str l2) else base
    | none => base
  update_location_by_type "address" (.obj data) resp a

/-- `get_status()`: call the transport's get-status endpoint (`resp` is
its parsed response); if it contains a `status` key, merge the whole
response into `_json_data`; either way return `self.status` afterwards. -/
def get_status (resp : PyDict) (a : NoonlightAlarm) : NoonlightAlarm × Option JVal :=
  let a1 := if hasKey resp "status" then { a with json := dictUpdate a.json resp } else a
  (a1, status a1)

end NoonlightAlarm

/-! ## The `NoonlightClient` error taxonomy -/

namespace NoonlightClient

/-- The exception classes declared on `NoonlightClient`. -/
inductive ErrorKind where
  | clientError : ErrorKind
  | unauthorized : ErrorKind
  | badRequest : ErrorKind
  | forbidden : ErrorKind
  | tooManyRequests : ErrorKind
  | internalServerError : ErrorKind
  | invalidData : ErrorKind
deriving DecidableEq, Repr

/-- The declared inheritance: every specific error class subclasses
`ClientError`, which itself subclasses `Exception` (no modelled parent). -/
def superclass : ErrorKind → Option ErrorKind
  | .clientError => none
  | _ => some .clientError

/-- The exception `handle_error` raises: its class and the raw
server-provided error payload it was constructed with. -/
structure RaisedError where
  kind : ErrorKind
  payload : JVal

/-- `handle_error(status, error)`: dispatch on the HTTP status to pick the
exception class, defaulting to the generic `ClientError`; the function
raises on every path — the returned value is the raised exception. -/
def handle_error (httpStatus : Int) (error : JVal) : RaisedError :=
  if httpStatus = 400 then ⟨.badRequest, error⟩
  else if httpStatus = 401 then ⟨.unauthorized, error⟩
  else if httpStatus = 403 then ⟨.forbidden, error⟩
  else if httpStatus = 429 then ⟨.tooManyRequests, error⟩
  else if httpStatus = 500 then ⟨.internalServerError, error⟩
  else ⟨.clientError, error⟩

end NoonlightClient

/-! ## The descending location order -/

/-- The numeric sort key of a merged location whose `created_at` holds a
parsed datetime (the only case in which the Python sort succeeds with a
mixed-free key class; other shapes take the default `0`, which no theorem
relies on). -/
def locSortKey (v : JVal) : Nat :=
  match NoonlightAlarm.locGet v with
  | some (.dt d) => dtKey d
  | _ => 0

/-- `x` may precede `y` in the most-recent-first order: `x`'s creation
time is at least `y`'s. -/
def locAfter (x y : JVal) : Prop := locSortKey y ≤ locSortKey x

instance : DecidableRel locAfter := fun x y =>
  inferInstanceAs (Decidable (locSortKey y ≤ locSortKey x))

instance : IsTotal JVal locAfter := ⟨fun x y => Nat.le_total (locSortKey y) (locSortKey x)⟩

instance : IsTrans JVal locAfter := ⟨fun _ _ _ h1 h2 => Nat.le_trans h2 h1⟩

/-- Every element of the list is a dict whose `created_at` is a string the
documented format parses: the premise under which the merged-location sort
is exception-free. -/
def AllParsedLocs (l : List JVal) : Prop :=
  ∀ v ∈ l, ∃ fs s d, v = JVal.obj fs ∧ dictGet fs "created_at" = some (.str s) ∧
    strptimeNoonlight s = some d

/-- The total restriction of the parse loop body: what `processLocs` does
to each entry once every entry is known to be a dict. -/
def procLocVal : JVal → JVal
  | .obj fs => .obj (NoonlightAlarm.parseLocTimestamp fs)
  | v => v

/-- Identity-distinctness of a sensor-event list: the invariant
`add_event`'s membership guard maintains on `_sensor_events`. -/
def NoDupEvents (l : List NoonlightSensorEvent) : Prop :=
  l.Pairwise (fun x y => pyEventEq x y = false)

/-! ## Concrete inputs for the witnesses and counterexamples -/

/-- An address location created 2020-01-01, as in the spec's merge-ordering test. -/
def addrLoc2020 : JVal :=
  .obj [("line1", .str "123 Main St"), ("created_at", .str "2020-01-01T00:00:00.000Z")]

/-- A coordinate location created 2021-01-01, as in the spec's merge-ordering test. -/
def coordLoc2021 : JVal :=
  .obj [("lat", .int 1), ("lng", .int 2), ("created_at", .str "2021-01-01T00:00:00.000Z")]

/-- A coordinate location with no `created_at` key at all. -/
def coordLocBare : JVal := .obj [("lat", .int 1)]

/-- An alarm holding one address and one coordinate location, both with
parseable timestamps. -/
def alarmBothLocs : NoonlightAlarm :=
  ⟨[("id", .str "abc"),
    ("locations", .obj [("addresses", .arr [addrLoc2020]),
                        ("coordinates", .arr [coordLoc2021])])], [], []⟩

/-- An alarm mixing a parseable-timestamp location with one lacking
`created_at`. -/
def alarmMixedLocs : NoonlightAlarm :=
  ⟨[("locations", .obj [("addresses", .arr [addrLoc2020]),
                        ("coordinates", .arr [coordLocBare])])], [], []⟩

/-- A freshly created alarm with an empty attribute bag and no events. -/
def alarmEmpty : NoonlightAlarm := ⟨[], [], []⟩

/-- First address payload echoed by the location-update endpoint. -/
def addrData1 : JVal := .obj [("line1", .str "1 First St"), ("city", .str "STL")]

/-- Second address payload echoed by the location-update endpoint. -/
def addrData2 : JVal := .obj [("line1", .str "2 Second St"), ("city", .str "STL")]

/-- Three sensor events with pairwise different identities, and a variant
of the first sharing its identity but no other field. -/
def evA : NoonlightSensorEvent :=
  ⟨"2020-01-01T00:00:00.000Z", "dev-1", "m1", "f1", "n1", "temperature", .int 20, "C"⟩

def evA' : NoonlightSensorEvent :=
  ⟨"2020-01-01T00:00:00.000Z", "dev-1", "m9", "f9", "n9", "humidity", .int 55, "pct"⟩

def evB : NoonlightSensorEvent :=
  ⟨"2020-01-01T00:00:01.000Z", "dev-1", "m1", "f1", "n1", "temperature", .int 21, "C"⟩

def evC : NoonlightSensorEvent :=
  ⟨"2020-01-01T00:00:00.000Z", "dev-2", "m2", "f2", "n2", "smoke", .bool true, ""⟩

/-- An alarm with three unsent events queued. -/
def alarmThreeEvents : NoonlightAlarm := ⟨[("status", .str "ACTIVE")], [evA, evB, evC], []⟩

/-- A batch acknowledgment response carrying an `id`. -/
def respAck : PyDict := [("id", .str "evt-batch-1")]

/-- A well-formed response with no acknowledgment `id`. -/
def respNoAck : PyDict := [("message", .str "accepted later")]

/-- An alarm whose single queued event has already been acknowledged. -/
def alarmAllSent : NoonlightAlarm := ⟨[], [evA], [evA]⟩

/-- An alarm with exactly one queued, unsent event. -/
def alarmOneEvent : NoonlightAlarm := ⟨[], [evA], []⟩

/-- A 404 error body, for exercising the generic error branch. -/
def payload404 : JVal := .obj [("message", .str "not found")]

/-- The get-status response of the spec's merge test. -/
def respStatusExtra : PyDict := [("status", .str "ACTIVE"), ("extra", .int 1)]

/-- An alarm whose local status is `ACTIVE`. -/
def alarmActive : NoonlightAlarm := ⟨[("status", .str "ACTIVE")], [], []⟩

/-- Alarms with a parseable, a malformed, and a non-string `created_at`. -/
def alarmCreated2020 : NoonlightAlarm :=
  ⟨[("created_at", .str "2020-01-01T00:00:00.000Z")], [], []⟩

def alarmBadCreated : NoonlightAlarm := ⟨[("created_at", .str "not-a-date")], [], []⟩

def alarmIntCreated : NoonlightAlarm := ⟨[("created_at", .int 5)], [], []⟩

/-- Location-update responses echoing the respective type key. -/
def respAddr1 : PyDict := [("address", addrData1)]

def respAddr2 : PyDict := [("address", addrData2)]

def coordData1 : JVal := .obj [("lat", .int 1), ("lng", .int 2), ("accuracy", .int 5)]

def coordData2 : JVal := .obj [("lat", .int 3), ("lng", .int 4), ("accuracy", .int 5)]

def respCoord1 : PyDict := [("coordinates", coordData1)]

def respCoord2 : PyDict := [("coordinates", coordData2)]

/-- The alarm states reached by the location updates of the
`_add_location` evaluation: after one address update, after a second
address update (the first entry is gone), and the accumulating
coordinate counterparts. -/
def alarmAfterAddr1 : NoonlightAlarm :=
  ⟨[("locations", .obj [("addresses", .arr [addrData1])])], [], []⟩

def alarmAfterAddr2 : NoonlightAlarm :=
  ⟨[("locations", .obj [("addresses", .arr [addrData2])])], [], []⟩

def alarmAfterCoord1 : NoonlightAlarm :=
  ⟨[("locations", .obj [("coordinates", .arr [coordData1])])], [], []⟩

def alarmAfterCoord2 : NoonlightAlarm :=
  ⟨[("locations", .obj [("coordinates", .arr [coordData1, coordData2])])], [], []⟩

/-- The merge-test locations after the parse loop. -/
def addrLoc2020Parsed : JVal :=
  .obj [("line1", .str "123 Main St"), ("created_at", .dt ⟨2020, 1, 1, 0, 0, 0, 0⟩)]

def coordLoc2021Parsed : JVal :=
  .obj [("lat", .int 1), ("lng", .int 2), ("created_at", .dt ⟨2021, 1, 1, 0, 0, 0, 0⟩)]

/-- A transport response whose status is the JSON float `200.0`:
`json.loads('{"status": 200.0}')`. -/
def respFloat200 : PyDict := [("status", .float 200)]

/-! ## Helper lemmas -/

theorem dictGet_dictSet_self (d : PyDict) (k : String) (v : JVal) :
    dictGet (dictSet d k v) k = some v := by
  induction d with
  | nil => simp [dictSet, dictGet]
  | cons p d ih =>
    obtain ⟨k', v'⟩ := p
    by_cases h : k' = k
    · simp [dictSet, dictGet, h]
    · simp [dictSet, dictGet, h, ih]

theorem dictGet_dictSet_ne (d : PyDict) (k k2 : String) (v : JVal) (h : k2 ≠ k) :
    dictGet (dictSet d k v) k2 = dictGet d k2 := by
  induction d with
  | nil => simp [dictSet, dictGet, Ne.symm h]
  | cons p d ih =>
    obtain ⟨k', v'⟩ := p
    by_cases h1 : k' = k
    · simp [dictSet, dictGet, h1, Ne.symm h]
    · by_cases h2 : k' = k2 <;> simp [dictSet, dictGet, h, h1, h2, ih]

theorem hasKey_iff_mem (d : PyDict) (k : String) :
    hasKey d k = true ↔ k ∈ d.map Prod.fst := by
  induction d with
  | nil => simp [hasKey]
  | cons p d ih =>
    obtain ⟨k', v'⟩ := p
    by_cases h : k' = k
    · simp [hasKey, h]
    · simp [hasKey, h, ih, Ne.symm h]

theorem dictUpdate_cons (d : PyDict) (k : String) (v : JVal) (r : PyDict) :
    dictUpdate d ((k, v) :: r) = dictUpdate (dictSet d k v) r := rfl

theorem dictGet_dictUpdate_not_has (r : PyDict) (k : String) :
    ∀ d, hasKey r k = false → dictGet (dictUpdate d r) k = dictGet d k := by
  induction r with
  | nil => intro d _; rfl
  | cons p r ih =>
    obtain ⟨k1, v1⟩ := p
    intro d h
    have h1 : k1 ≠ k := by
      intro e
      simp [hasKey, e] at h
    have h2 : hasKey r k = false := by
      simpa [hasKey, h1] using h
    rw [dictUpdate_cons, ih _ h2, dictGet_dictSet_ne _ _ _ _ (Ne.symm h1)]

theorem dictGet_dictUpdate_has (r : PyDict) (k : String) :
    ∀ d, DictWF r → hasKey r k = true → dictGet (dictUpdate d r) k = dictGet r k := by
  induction r with
  | nil => intro d _ h; simp [hasKey] at h
  | cons p r ih =>
    obtain ⟨k1, v1⟩ := p
    intro d wf h
    obtain ⟨hnotin, wf'⟩ := List.nodup_cons.mp wf
    by_cases e : k1 = k
    · subst e
      have hk : hasKey r k1 = false := by
        rcases hb : hasKey r k1 with _ | _
        · rfl
        · exact absurd ((hasKey_iff_mem r k1).mp hb) hnotin
      rw [dictUpdate_cons, dictGet_dictUpdate_not_has _ _ _ hk, dictGet_dictSet_self]
      simp [dictGet]
    · have h' : hasKey r k = true := by simpa [hasKey, e] using h
      rw [dictUpdate_cons, ih _ wf' h']
      simp [dictGet, e]

theorem pyEqInt_200_iff (v : JVal) :
    NoonlightAlarm.pyEqInt (some v) 200 = true ↔ (v = .int 200 ∨ v = .float 200) := by
  cases v with
  | int n =>
    constructor
    · intro h
      have hn : n = 200 := by simpa [NoonlightAlarm.pyEqInt, beq_iff_eq] using h
      exact Or.inl (by rw [hn])
    · rintro (h | h)
      · cases h; decide
      · exact JVal.noConfusion h
  | float q =>
    constructor
    · intro h
      have hq : q = ((200 : Int) : ℚ) := by
        simpa [NoonlightAlarm.pyEqInt, beq_iff_eq] using h
      have hq' : q = (200 : ℚ) := by rw [hq]; norm_num
      exact Or.inr (by rw [hq'])
    · rintro (h | h)
      · exact JVal.noConfusion h
      · cases h; rfl
  | bool b =>
    constructor
    · intro h
      cases b <;> exact absurd h (by decide)
    · rintro (h | h) <;> exact JVal.noConfusion h
  | null =>
    constructor
    · intro h; exact absurd h (by decide)
    · rintro (h | h) <;> exact JVal.noConfusion h
  | str t =>
    constructor
    · intro h; exact Bool.noConfusion h
    · rintro (h | h) <;> exact JVal.noConfusion h
  | dt d =>
    constructor
    · intro h; exact Bool.noConfusion h
    · rintro (h | h) <;> exact JVal.noConfusion h
  | arr l =>
    constructor
    · intro h; exact Bool.noConfusion h
    · rintro (h | h) <;> exact JVal.noConfusion h
  | obj l =>
    constructor
    · intro h; exact Bool.noConfusion h
    · rintro (h | h) <;> exact JVal.noConfusion h

theorem pyEqInt_200_false (v : JVal) (h1 : v ≠ .int 200) (h2 : v ≠ .float 200) :
    NoonlightAlarm.pyEqInt (some v) 200 = false := by
  rcases hb : NoonlightAlarm.pyEqInt (some v) 200 with _ | _
  · rfl
  · rcases (pyEqInt_200_iff v).mp hb with h | h
    · exact absurd h h1
    · exact absurd h h2

theorem pyEventEq_refl (e : NoonlightSensorEvent) : pyEventEq e e = true := by
  simp [pyEventEq]

theorem send_events_preserves_events (resp : PyDict) (a : NoonlightAlarm) :
    ((NoonlightAlarm.send_events resp a).1).events = a.events := by
  unfold NoonlightAlarm.send_events
  dsimp only
  split
  · split <;> rfl
  · rfl

/-! ## Claim theorems -/

/-- C3: `cancel()` returns true and sets the local status to `CANCELED`
when the transport's update response has status `200`; whenever the
response's status does not compare equal to `200` under Python's `==`
(so for `{"status": 400}`, a string, a missing field, ...) it returns
false with the whole local state (json attributes and both event lists)
unchanged, as a return value rather than an exception (the embedded
`cancel` is a total function on dict responses). -/
theorem cancel_success_and_failure (a : NoonlightAlarm) (resp : PyDict) :
    (dictGet resp "status" = some (.int 200) →
      NoonlightAlarm.cancel resp a =
        ({ a with json := dictSet a.json "status" (.str "CANCELED") }, true) ∧
      ((NoonlightAlarm.cancel resp a).1).status = some (.str "CANCELED")) ∧
    (NoonlightAlarm.pyEqInt (dictGet resp "status") 200 = false →
      NoonlightAlarm.cancel resp a = (a, false)) := by
  constructor
  · intro h
    have ht : NoonlightAlarm.pyEqInt (dictGet resp "status") 200 = true := by
      rw [h]; decide
    refine ⟨by simp [NoonlightAlarm.cancel, ht], ?_⟩
    simp [NoonlightAlarm.cancel, ht, NoonlightAlarm.status, dictGet_dictSet_self]
  · intro h
    simp [NoonlightAlarm.cancel, h]

/-- Witness for C3 at the spec's test responses: `{"status": 200}` cancels
and sets the status; `{"status": 400}` fails and leaves the alarm as it was. -/
theorem cancel_success_and_failure_witness :
    (dictGet [("status", JVal.int 200)] "status" = some (.int 200) ∧
      NoonlightAlarm.cancel [("status", JVal.int 200)] alarmActive =
        ({ alarmActive with
            json := dictSet alarmActive.json "status" (.str "CANCELED") }, true)) ∧
    (NoonlightAlarm.pyEqInt (dictGet [("status", JVal.int 400)] "status") 200 = false ∧
      NoonlightAlarm.cancel [("status", JVal.int 400)] alarmActive = (alarmActive, false)) :=
  ⟨⟨rfl, ((cancel_success_and_failure alarmActive [("status", JVal.int 200)]).1 rfl).1⟩,
   ⟨by decide,
    (cancel_success_and_failure alarmActive [("status", JVal.int 400)]).2 (by decide)⟩⟩

/-- Counterexample for C10 as stated: the JSON float `200.0` is a value
other than the exact integer `200`, yet `response.get('status') == 200`
is true of it in CPython (mixed float/int `==` compares exact numeric
values), so `cancel()` returns true and mutates the local status. -/
theorem cancel_accepts_float_200 :
    JVal.float 200 ≠ JVal.int 200 ∧
    NoonlightAlarm.cancel respFloat200 alarmActive =
      ({ alarmActive with
          json := dictSet alarmActive.json "status" (.str "CANCELED") }, true) :=
  ⟨fun h => JVal.noConfusion h, rfl⟩

/-- C10 (amended): `cancel()` counts as success exactly the response
status values that compare numerically equal to `200` under Python's
`==` — the int `200` and the float `200.0`; for every other value
(other ints such as `201`, the string `"200"`, booleans, which compare
as `0`/`1`, any non-numeric value, or a missing field) it returns false
and leaves the alarm untouched. -/
theorem cancel_success_values (a : NoonlightAlarm) (resp : PyDict) (v : JVal) :
    (dictGet resp "status" = some v →
      ((NoonlightAlarm.cancel resp a).2 = true ↔ (v = .int 200 ∨ v = .float 200))) ∧
    (dictGet resp "status" = some v → v ≠ .int 200 → v ≠ .float 200 →
      NoonlightAlarm.cancel resp a = (a, false)) ∧
    (dictGet resp "status" = none → NoonlightAlarm.cancel resp a = (a, false)) := by
  refine ⟨?_, ?_, ?_⟩
  · intro hv
    by_cases hb : NoonlightAlarm.pyEqInt (some v) 200 = true
    · have hc : (NoonlightAlarm.cancel resp a).2 = true := by
        simp [NoonlightAlarm.cancel, hv, hb]
      exact iff_of_true hc ((pyEqInt_200_iff v).mp hb)
    · have hb' : NoonlightAlarm.pyEqInt (some v) 200 = false :=
        Bool.eq_false_iff.mpr hb
      have hc : NoonlightAlarm.cancel resp a = (a, false) := by
        simp [NoonlightAlarm.cancel, hv, hb']
      refine iff_of_false ?_ (fun hor => hb ((pyEqInt_200_iff v).mpr hor))
      rw [hc]
      simp
  · intro hv h1 h2
    simp [NoonlightAlarm.cancel, hv, pyEqInt_200_false v h1 h2]
  · intro hv
    simp [NoonlightAlarm.cancel, hv, NoonlightAlarm.pyEqInt]

/-- Witness for C10's amendment: the string `"200"` and the int `201`
fail; the int `200` and the float `200.0` succeed. -/
theorem cancel_success_values_witness :
    (dictGet [("status", JVal.str "200")] "status" = some (.str "200") ∧
      NoonlightAlarm.cancel [("status", JVal.str "200")] alarmActive = (alarmActive, false)) ∧
    (dictGet [("status", JVal.int 201)] "status" = some (.int 201) ∧
      NoonlightAlarm.cancel [("status", JVal.int 201)] alarmActive = (alarmActive, false)) ∧
    ((NoonlightAlarm.cancel [("status", JVal.int 200)] alarmActive).2 = true ↔
      (JVal.int 200 = .int 200 ∨ JVal.int 200 = .float 200)) ∧
    ((NoonlightAlarm.cancel respFloat200 alarmActive).2 = true ↔
      (JVal.float 200 = .int 200 ∨ JVal.float 200 = .float 200)) :=
  ⟨⟨rfl, (cancel_success_values alarmActive _ _).2.1 rfl
      (fun h => JVal.noConfusion h) (fun h => JVal.noConfusion h)⟩,
   ⟨rfl, (cancel_success_values alarmActive _ _).2.1 rfl
      (fun h => absurd (JVal.int.inj h) (by decide)) (fun h => JVal.noConfusion h)⟩,
   (cancel_success_values alarmActive [("status", JVal.int 200)] (.int 200)).1 rfl,
   (cancel_success_values alarmActive respFloat200 (.float 200)).1 rfl⟩

/-- C7: with no unsent events, `send_events()` makes no transport call
(the flag is false), mutates nothing, and returns the empty list. -/
theorem send_events_noop_when_no_unsent (a : NoonlightAlarm) (resp : PyDict)
    (h : NoonlightAlarm.unsent_events a = []) :
    NoonlightAlarm.send_events resp a = (a, [], false) := by
  simp [NoonlightAlarm.send_events, h]

/-- Witness for C7 on an alarm whose only event is already sent. -/
theorem send_events_noop_when_no_unsent_witness :
    NoonlightAlarm.unsent_events alarmAllSent = [] ∧
    NoonlightAlarm.send_events respAck alarmAllSent = (alarmAllSent, [], false) :=
  ⟨rfl, send_events_noop_when_no_unsent alarmAllSent respAck rfl⟩

/-- C9: for every non-2xx status, `handle_error` raises exactly the error
the status selects — `BadRequest` for 400, `Unauthorized` for 401,
`Forbidden` for 403, `TooManyRequests` for 429, `InternalServerError` for
500, the generic `ClientError` for everything else — always carrying the
raw payload; and every specific kind subclasses `ClientError`.  The
embedded `handle_error` returns the raised error on every input: it never
returns normally. -/
theorem handle_error_taxonomy (s : Int) (payload : JVal)
    (hs : ¬(200 ≤ s ∧ s < 300)) :
    (s = 400 → NoonlightClient.handle_error s payload = ⟨.badRequest, payload⟩) ∧
    (s = 401 → NoonlightClient.handle_error s payload = ⟨.unauthorized, payload⟩) ∧
    (s = 403 → NoonlightClient.handle_error s payload = ⟨.forbidden, payload⟩) ∧
    (s = 429 → NoonlightClient.handle_error s payload = ⟨.tooManyRequests, payload⟩) ∧
    (s = 500 → NoonlightClient.handle_error s payload = ⟨.internalServerError, payload⟩) ∧
    (s ≠ 400 → s ≠ 401 → s ≠ 403 → s ≠ 429 → s ≠ 500 →
      NoonlightClient.handle_error s payload = ⟨.clientError, payload⟩) ∧
    (NoonlightClient.handle_error s payload).payload = payload ∧
    (∀ k : NoonlightClient.ErrorKind, k ≠ .clientError →
      NoonlightClient.superclass k = some .clientError) := by
  refine ⟨?_, ?_, ?_, ?_, ?_, ?_, ?_, ?_⟩
  · intro h; subst h; rfl
  · intro h; subst h; rfl
  · intro h; subst h; rfl
  · intro h; subst h; rfl
  · intro h; subst h; rfl
  · intro h1 h2 h3 h4 h5
    simp [NoonlightClient.handle_error, h1, h2, h3, h4, h5]
  · unfold NoonlightClient.handle_error
    split
    · rfl
    · split
      · rfl
      · split
        · rfl
        · split
          · rfl
          · split <;> rfl
  · intro k hk
    cases k <;> first | rfl | exact absurd rfl hk

/-- Witness for C9 at the non-2xx status 404, which takes the generic branch. -/
theorem handle_error_taxonomy_witness :
    ¬(200 ≤ (404 : Int) ∧ (404 : Int) < 300) ∧
    NoonlightClient.handle_error 404 payload404 = ⟨.clientError, payload404⟩ :=
  ⟨by decide,
   (handle_error_taxonomy 404 payload404 (by decide)).2.2.2.2.2.1
     (by decide) (by decide) (by decide) (by decide) (by decide)⟩

/-- C4: with a non-empty unsent snapshot, `send_events()` makes one
transport call; if the response carries an `id` the whole snapshot is
appended to the sent list (each snapshot event's identity then occurs
among the sent events) and returned, and otherwise the result is the
empty list with the state — in particular the event queue — unchanged. -/
theorem send_events_all_or_nothing (a : NoonlightAlarm) (resp : PyDict)
    (h : NoonlightAlarm.unsent_events a ≠ []) :
    (hasKey resp "id" = true →
      NoonlightAlarm.send_events resp a =
        ({ a with sentEvents := a.sentEvents ++ NoonlightAlarm.unsent_events a },
          NoonlightAlarm.unsent_events a, true) ∧
      ∀ e ∈ NoonlightAlarm.unsent_events a,
        ((NoonlightAlarm.send_events resp a).1).sentEvents.any
          (fun s => pyEventEq s e) = true) ∧
    (hasKey resp "id" = false →
      NoonlightAlarm.send_events resp a = (a, [], true)) := by
  have hl : 0 < (NoonlightAlarm.unsent_events a).length := List.length_pos.mpr h
  constructor
  · intro hid
    have he : NoonlightAlarm.send_events resp a =
        ({ a with sentEvents := a.sentEvents ++ NoonlightAlarm.unsent_events a },
          NoonlightAlarm.unsent_events a, true) := by
      simp [NoonlightAlarm.send_events, hl, hid]
    refine ⟨he, ?_⟩
    intro e he'
    rw [he]
    exact List.any_eq_true.mpr ⟨e, List.mem_append_right _ he', pyEventEq_refl e⟩
  · intro hid
    simp [NoonlightAlarm.send_events, hl, hid]

/-- Witness for C4: three unsent events; an acknowledged batch marks all
three sent and returns them, an unacknowledged one changes nothing and
returns the empty list. -/
theorem send_events_all_or_nothing_witness :
    NoonlightAlarm.unsent_events alarmThreeEvents = [evA, evB, evC] ∧
    NoonlightAlarm.send_events respAck alarmThreeEvents =
      ({ alarmThreeEvents with
          sentEvents := alarmThreeEvents.sentEvents ++
            NoonlightAlarm.unsent_events alarmThreeEvents },
        NoonlightAlarm.unsent_events alarmThreeEvents, true) ∧
    NoonlightAlarm.send_events respNoAck alarmThreeEvents =
      (alarmThreeEvents, [], true) :=
  ⟨rfl,
   ((send_events_all_or_nothing alarmThreeEvents respAck
      (fun h => List.noConfusion h)).1 rfl).1,
   (send_events_all_or_nothing alarmThreeEvents respNoAck
      (fun h => List.noConfusion h)).2 rfl⟩

/-- C5: sensor-event equality is exactly identity of the
`(timestamp, device_id)` pair; `add_event` returns Python `None` and
leaves the alarm untouched when an identity-equal event is already
queued; and consequently the event queue never acquires two
identity-equal entries. -/
theorem sensor_event_identity_semantics :
    (∀ x y : NoonlightSensorEvent,
      pyEventEq x y = true ↔ x.timestamp = y.timestamp ∧ x.device_id = y.device_id) ∧
    (∀ (a : NoonlightAlarm) (e : NoonlightSensorEvent) (si : Bool) (resp : PyDict),
      (∃ x ∈ a.events, pyEventEq x e = true) →
      NoonlightAlarm.add_event e si resp a = (a, none, false)) ∧
    (∀ (a : NoonlightAlarm) (e : NoonlightSensorEvent) (si : Bool) (resp : PyDict),
      NoDupEvents a.events →
      NoDupEvents ((NoonlightAlarm.add_event e si resp a).1).events) := by
  refine ⟨?_, ?_, ?_⟩
  · intro x y
    simp [pyEventEq, Prod.ext_iff]
  · intro a e si resp hex
    obtain ⟨x, hx, hxe⟩ := hex
    have hm : a.events.any (fun x => pyEventEq x e) = true :=
      List.any_eq_true.mpr ⟨x, hx, hxe⟩
    simp [NoonlightAlarm.add_event, hm]
  · intro a e si resp hnd
    by_cases hm : a.events.any (fun x => pyEventEq x e) = true
    · simpa [NoonlightAlarm.add_event, hm] using hnd
    · have hall : ∀ x ∈ a.events, pyEventEq x e = false := by
        intro x hx
        rcases hb : pyEventEq x e with _ | _
        · rfl
        · exact absurd (List.any_eq_true.mpr ⟨x, hx, hb⟩) hm
      have hnd1 : NoDupEvents (a.events ++ [e]) := by
        refine List.pairwise_append.mpr ⟨hnd, List.pairwise_singleton _ _, ?_⟩
        intro x hx y hy
        rcases List.mem_singleton.mp hy
        exact hall x hx
      cases si with
      | false => simpa [NoonlightAlarm.add_event, hm] using hnd1
      | true =>
        have : ((NoonlightAlarm.add_event e true resp a).1).events =
            a.events ++ [e] := by
          simp [NoonlightAlarm.add_event, hm, send_events_preserves_events]
        rw [this]
        exact hnd1

/-- Witness for C5: adding `evA'`, which shares `evA`'s identity but no
other field, to an alarm already holding `evA` is a `None`-returning
no-op, and adding it to the three-event alarm keeps the queue
identity-distinct. -/
theorem sensor_event_identity_semantics_witness :
    (∃ x ∈ alarmOneEvent.events, pyEventEq x evA' = true) ∧
    NoonlightAlarm.add_event evA' true respAck alarmOneEvent =
      (alarmOneEvent, none, false) ∧
    NoDupEvents alarmThreeEvents.events ∧
    NoDupEvents ((NoonlightAlarm.add_event evA' false respAck alarmThreeEvents).1).events :=
  ⟨⟨evA, List.mem_cons_self _ _, rfl⟩,
   sensor_event_identity_semantics.2.1 alarmOneEvent evA' true respAck
     ⟨evA, List.mem_cons_self _ _, rfl⟩,
   by unfold NoDupEvents; decide,
   sensor_event_identity_semantics.2.2 alarmThreeEvents evA' false respAck
     (by unfold NoDupEvents; decide)⟩

/-- C6: `get_status()` with a `status`-bearing response merges the whole
response into the attribute bag — every key of the response overwrites or
extends the local value, every other local key is untouched — and
returns the merged status (the response's own); without a `status` field
it returns the local status and mutates nothing. -/
theorem get_status_merge_spec (a : NoonlightAlarm) (resp : PyDict) (wf : DictWF resp) :
    (hasKey resp "status" = true →
      NoonlightAlarm.get_status resp a =
        ({ a with json := dictUpdate a.json resp }, dictGet resp "status") ∧
      (∀ k, hasKey resp k = true →
        dictGet (dictUpdate a.json resp) k = dictGet resp k) ∧
      (∀ k, hasKey resp k = false →
        dictGet (dictUpdate a.json resp) k = dictGet a.json k)) ∧
    (hasKey resp "status" = false →
      NoonlightAlarm.get_status resp a = (a, dictGet a.json "status")) := by
  constructor
  · intro h
    have hs := dictGet_dictUpdate_has resp "status" a.json wf h
    refine ⟨?_, fun k hk => dictGet_dictUpdate_has resp k a.json wf hk,
      fun k hk => dictGet_dictUpdate_not_has resp k a.json hk⟩
    simp [NoonlightAlarm.get_status, h, NoonlightAlarm.status, hs]
  · intro h
    simp [NoonlightAlarm.get_status, h, NoonlightAlarm.status]

/-- Witness for C6 at the spec's merge test: local status `ACTIVE`,
response `{"status": "ACTIVE", "extra": 1}` — the call returns `ACTIVE`
and the merged attribute bag now holds `extra = 1`. -/
theorem get_status_merge_spec_witness :
    DictWF respStatusExtra ∧
    hasKey respStatusExtra "status" = true ∧
    NoonlightAlarm.get_status respStatusExtra alarmActive =
      ({ alarmActive with json := dictUpdate alarmActive.json respStatusExtra },
        dictGet respStatusExtra "status") ∧
    dictGet respStatusExtra "status" = some (.str "ACTIVE") ∧
    dictGet (dictUpdate alarmActive.json respStatusExtra) "extra" = some (.int 1) :=
  ⟨by unfold DictWF; decide, rfl,
   ((get_status_merge_spec alarmActive respStatusExtra (by unfold DictWF; decide)).1 rfl).1,
   rfl, rfl⟩

/-- C8: the `created_at` accessor is a total function of the stored
value: a stored string the documented format accepts yields its parse, a
stored string the format rejects yields `datetime.min`, a missing key
yields `datetime.min` (the source's default string parses to exactly
`datetime(1, 1, 1)`), and a non-string value (a `TypeError` inside
`strptime`) yields `datetime.min`; no input raises. -/
theorem created_at_total_spec (a : NoonlightAlarm) :
    (∀ s d, dictGet a.json "created_at" = some (.str s) →
      strptimeNoonlight s = some d → NoonlightAlarm.created_at a = d) ∧
    (∀ s, dictGet a.json "created_at" = some (.str s) →
      strptimeNoonlight s = none → NoonlightAlarm.created_at a = datetimeMin) ∧
    (dictGet a.json "created_at" = none → NoonlightAlarm.created_at a = datetimeMin) ∧
    (∀ v, dictGet a.json "created_at" = some v → (∀ s, v ≠ .str s) →
      NoonlightAlarm.created_at a = datetimeMin) := by
  refine ⟨?_, ?_, ?_, ?_⟩
  · intro s d h hp
    simp [NoonlightAlarm.created_at, NoonlightAlarm.createdAtRaw,
      NoonlightAlarm.pyStrptime, h, hp]
  · intro s h hp
    simp [NoonlightAlarm.created_at, NoonlightAlarm.createdAtRaw,
      NoonlightAlarm.pyStrptime, h, hp]
  · intro h
    unfold NoonlightAlarm.created_at NoonlightAlarm.createdAtRaw
    rw [h]
    rfl
  · intro v h hv
    have hp : NoonlightAlarm.pyStrptime v = .error .typeError := by
      cases v with
      | str s => exact absurd rfl (hv s)
      | null => rfl
      | bool b => rfl
      | int n => rfl
      | float q => rfl
      | dt d => rfl
      | arr l => rfl
      | obj l => rfl
    unfold NoonlightAlarm.created_at NoonlightAlarm.createdAtRaw
    rw [h]
    simp only [Option.getD_some]
    rw [hp]

/-- Witness for C8: a parseable stored timestamp yields its parse, the
malformed `"not-a-date"` yields `datetime.min`, the missing key yields
`datetime.min`, and the non-string `5` yields `datetime.min`. -/
theorem created_at_total_spec_witness :
    (dictGet alarmCreated2020.json "created_at" =
        some (.str "2020-01-01T00:00:00.000Z") ∧
      strptimeNoonlight "2020-01-01T00:00:00.000Z" = some ⟨2020, 1, 1, 0, 0, 0, 0⟩ ∧
      NoonlightAlarm.created_at alarmCreated2020 = ⟨2020, 1, 1, 0, 0, 0, 0⟩) ∧
    (strptimeNoonlight "not-a-date" = none ∧
      NoonlightAlarm.created_at alarmBadCreated = datetimeMin) ∧
    (dictGet alarmEmpty.json "created_at" = none ∧
      NoonlightAlarm.created_at alarmEmpty = datetimeMin) ∧
    NoonlightAlarm.created_at alarmIntCreated = datetimeMin :=
  ⟨⟨rfl, rfl, (created_at_total_spec alarmCreated2020).1 _ _ rfl rfl⟩,
   ⟨rfl, (created_at_total_spec alarmBadCreated).2.1 _ rfl rfl⟩,
   ⟨rfl, (created_at_total_spec alarmEmpty).2.2.1 rfl⟩,
   (created_at_total_spec alarmIntCreated).2.2.2 _ rfl (fun _ h => JVal.noConfusion h)⟩

/-- C2 (code bug): `_add_location` tests membership of `type`
(`'address'`) in the locations dict but stores under `key`
(`'addresses'`), so the initialise-if-absent guard fires on every address
update and resets the list: after two successful address updates only the
second location remains, while the coordinate path (whose two names
coincide) accumulates as documented.  Each update still reports success. -/
theorem address_update_drops_earlier_location :
    NoonlightAlarm.update_location_address "1 First St" none "STL" "MO" "63101"
      respAddr1 alarmEmpty = .ok (alarmAfterAddr1, true) ∧
    NoonlightAlarm.update_location_address "2 Second St" none "STL" "MO" "63101"
      respAddr2 alarmAfterAddr1 = .ok (alarmAfterAddr2, true) ∧
    dictGet alarmAfterAddr2.json "locations" =
      some (.obj [("addresses", .arr [addrData2])]) ∧
    NoonlightAlarm.update_location_coordinates (.int 1) (.int 2) (.int 5)
      respCoord1 alarmEmpty = .ok (alarmAfterCoord1, true) ∧
    NoonlightAlarm.update_location_coordinates (.int 3) (.int 4) (.int 5)
      respCoord2 alarmAfterCoord1 = .ok (alarmAfterCoord2, true) :=
  ⟨rfl, rfl, rfl, rfl, rfl⟩

/-- The parse loop succeeds on a list of dicts and maps each through the
in-place timestamp parse. -/
theorem processLocs_all_obj (l : List JVal) (h : ∀ v ∈ l, ∃ fs, v = JVal.obj fs) :
    NoonlightAlarm.processLocs l = .ok (l.map procLocVal) := by
  induction l with
  | nil => rfl
  | cons v l ih =>
    obtain ⟨fs, rfl⟩ := h v (List.mem_cons_self _ _)
    have hr := ih (fun x hx => h x (List.mem_cons_of_mem _ hx))
    simp [NoonlightAlarm.processLocs, hr, procLocVal]

/-- After the parse loop, a dict whose `created_at` was a parseable string
carries the parsed datetime under `created_at`. -/
theorem locGet_procLocVal (fs : PyDict) (s : String) (d : PyDatetime)
    (hget : dictGet fs "created_at" = some (.str s))
    (hp : strptimeNoonlight s = some d) :
    NoonlightAlarm.locGet (procLocVal (.obj fs)) = some (.dt d) := by
  simp [procLocVal, NoonlightAlarm.locGet, NoonlightAlarm.parseLocTimestamp,
    hget, hp, dictGet_dictSet_self]

/-- On all-datetime keys the fallible insertion computes Mathlib's
`orderedInsert` for the most-recent-first order. -/
theorem insertDescE_all_dt (a : JVal) (l : List JVal)
    (ha : ∃ d, NoonlightAlarm.locGet a = some (.dt d))
    (hl : ∀ x ∈ l, ∃ d, NoonlightAlarm.locGet x = some (.dt d)) :
    NoonlightAlarm.insertDescE a l = .ok (List.orderedInsert locAfter a l) := by
  induction l with
  | nil => rfl
  | cons b l ih =>
    obtain ⟨da, hda⟩ := ha
    obtain ⟨db, hdb⟩ := hl b (List.mem_cons_self _ _)
    have hlt : NoonlightAlarm.pyKeyLt (NoonlightAlarm.locGet a) (NoonlightAlarm.locGet b)
        = .ok (decide (dtKey da < dtKey db)) := by rw [hda, hdb]; rfl
    have hka : locSortKey a = dtKey da := by simp [locSortKey, hda]
    have hkb : locSortKey b = dtKey db := by simp [locSortKey, hdb]
    have hrec := ih (fun x hx => hl x (List.mem_cons_of_mem _ hx))
    by_cases hc : dtKey da < dtKey db
    · have hAfter : ¬locAfter a b := by
        unfold locAfter
        rw [hka, hkb]
        omega
      simp [NoonlightAlarm.insertDescE, hlt, hc, hrec, List.orderedInsert, hAfter]
    · have hAfter : locAfter a b := by
        unfold locAfter
        rw [hka, hkb]
        omega
      simp [NoonlightAlarm.insertDescE, hlt, hc, List.orderedInsert, hAfter]

/-- On all-datetime keys the fallible sort computes Mathlib's stable
`insertionSort` for the most-recent-first order — the unique stable
descending sort, which is what CPython's stable `sorted(..., reverse=True)`
returns. -/
theorem pySortedDescE_all_dt (l : List JVal)
    (hl : ∀ x ∈ l, ∃ d, NoonlightAlarm.locGet x = some (.dt d)) :
    NoonlightAlarm.pySortedDescE l = .ok (List.insertionSort locAfter l) := by
  induction l with
  | nil => rfl
  | cons a l ih =>
    have hl' := fun x hx => hl x (List.mem_cons_of_mem _ hx)
    have hmem : ∀ x ∈ List.insertionSort locAfter l,
        ∃ d, NoonlightAlarm.locGet x = some (.dt d) := by
      intro x hx
      exact hl' x ((List.perm_insertionSort locAfter l).mem_iff.mp hx)
    simp [NoonlightAlarm.pySortedDescE, ih hl',
      insertDescE_all_dt a _ (hl a (List.mem_cons_self _ _)) hmem,
      List.insertionSort]

/-- C1 (amended): when every stored location is a dict whose `created_at`
string the documented format parses, `locations` returns (without
raising) the union of the address and coordinate locations — each with
its timestamp parsed in place — sorted by creation timestamp
most-recent-first.  Without that premise there is no minimum-timestamp
fallback: mixed or missing keys make the underlying sort raise
`TypeError` (see the counterexample). -/
theorem locations_sorted_when_all_parse (a : NoonlightAlarm) (locs : PyDict)
    (addrs coords : List JVal)
    (hlocs : dictGet a.json "locations" = some (.obj locs))
    (haddr : dictGet locs "addresses" = some (.arr addrs))
    (hcoord : dictGet locs "coordinates" = some (.arr coords))
    (hwf : AllParsedLocs (addrs ++ coords)) :
    ∃ out, NoonlightAlarm.locations a = .ok out ∧
      out.Sorted locAfter ∧
      out.Perm ((addrs ++ coords).map procLocVal) := by
  have hobj : ∀ v ∈ addrs ++ coords, ∃ fs, v = JVal.obj fs := by
    intro v hv
    obtain ⟨fs, s, d, hfs, _, _⟩ := hwf v hv
    exact ⟨fs, hfs⟩
  have hproc := processLocs_all_obj _ hobj
  have hdt : ∀ x ∈ (addrs ++ coords).map procLocVal,
      ∃ d, NoonlightAlarm.locGet x = some (.dt d) := by
    intro x hx
    obtain ⟨v, hv, rfl⟩ := List.mem_map.mp hx
    obtain ⟨fs, s, d, rfl, hget, hp⟩ := hwf v hv
    exact ⟨d, locGet_procLocVal fs s d hget hp⟩
  have hsort := pySortedDescE_all_dt _ hdt
  refine ⟨List.insertionSort locAfter ((addrs ++ coords).map procLocVal), ?_,
    List.sorted_insertionSort locAfter _, List.perm_insertionSort locAfter _⟩
  have h1 : NoonlightAlarm.locations a = NoonlightAlarm.locations.locationsOf locs := by
    unfold NoonlightAlarm.locations
    rw [hlocs]
  have h2 : NoonlightAlarm.locations.locationsOf locs =
      NoonlightAlarm.locations.sortMerged (addrs ++ coords) := by
    unfold NoonlightAlarm.locations.locationsOf
    rw [haddr, hcoord]
  have h3 : NoonlightAlarm.locations.sortMerged (addrs ++ coords) =
      NoonlightAlarm.pySortedDescE ((addrs ++ coords).map procLocVal) := by
    unfold NoonlightAlarm.locations.sortMerged
    rw [hproc]
  rw [h1, h2, h3, hsort]

/-- Witness for C1 at the spec's merge-ordering test: one address from
2020 and one coordinate from 2021, both parseable; the sorted result puts
the 2021 coordinate entry first. -/
theorem locations_sorted_when_all_parse_witness :
    dictGet alarmBothLocs.json "locations" =
      some (.obj [("addresses", .arr [addrLoc2020]),
                  ("coordinates", .arr [coordLoc2021])]) ∧
    AllParsedLocs ([addrLoc2020] ++ [coordLoc2021]) ∧
    (∃ out, NoonlightAlarm.locations alarmBothLocs = .ok out ∧
      out.Sorted locAfter ∧
      out.Perm (([addrLoc2020] ++ [coordLoc2021]).map procLocVal)) ∧
    NoonlightAlarm.locations alarmBothLocs =
      .ok [coordLoc2021Parsed, addrLoc2020Parsed] := by
  refine ⟨rfl, ?_, ?_, rfl⟩
  · intro v hv
    rcases List.mem_cons.mp hv with h | h
    · subst h
      exact ⟨[("line1", .str "123 Main St"),
              ("created_at", .str "2020-01-01T00:00:00.000Z")],
        "2020-01-01T00:00:00.000Z", ⟨2020, 1, 1, 0, 0, 0, 0⟩, rfl, rfl, rfl⟩
    · rcases List.mem_singleton.mp h
      exact ⟨[("lat", .int 1), ("lng", .int 2),
              ("created_at", .str "2021-01-01T00:00:00.000Z")],
        "2021-01-01T00:00:00.000Z", ⟨2021, 1, 1, 0, 0, 0, 0⟩, rfl, rfl, rfl⟩
  · refine locations_sorted_when_all_parse alarmBothLocs
      [("addresses", .arr [addrLoc2020]), ("coordinates", .arr [coordLoc2021])]
      [addrLoc2020] [coordLoc2021] rfl rfl rfl ?_
    intro v hv
    rcases List.mem_cons.mp hv with h | h
    · subst h
      exact ⟨[("line1", .str "123 Main St"),
              ("created_at", .str "2020-01-01T00:00:00.000Z")],
        "2020-01-01T00:00:00.000Z", ⟨2020, 1, 1, 0, 0, 0, 0⟩, rfl, rfl, rfl⟩
    · rcases List.mem_singleton.mp h
      exact ⟨[("lat", .int 1), ("lng", .int 2),
              ("created_at", .str "2021-01-01T00:00:00.000Z")],
        "2021-01-01T00:00:00.000Z", ⟨2021, 1, 1, 0, 0, 0, 0⟩, rfl, rfl, rfl⟩

/-- Counterexample for C1 as stated: a parseable address timestamp next
to a coordinate location with no `created_at` makes the sort compare a
`datetime` key against `None`, so `locations` raises `TypeError` instead
of falling back to a minimum timestamp. -/
theorem locations_mixed_timestamps_raise :
    NoonlightAlarm.locations alarmMixedLocs = .error .typeError := rfl
